import Mathlib

/-!
Shallow embedding of `src/ivi/agilent/agilent34410A.py` (python-ivi,
Agilent 34410A IVI DMM driver).

Conventions of the embedding:
* Python exceptions are modelled by the `PyError` type; a method returns an
  `Outcome α`: the driver state after the call (Python exceptions do not roll
  state back), the transport/timing side effects performed before returning
  or raising, and `Except PyError α` for the result.
* The instrument behind `self._ask` is modelled as a function
  `tr : String → String` from the command sent to the response line; the
  response consumed by a raw `self._read()` is passed as an explicit argument.
* The module `agilent34410A.py` imports only `time`, `struct`, `ivi` and
  `dmm`; the bare names `TriggerTypeMapping` (line 174), `Auto` (line 198)
  and `OutOfRangeException` (lines 260, 267, 274, 282) are not defined in the
  module and not imported, so evaluating them raises Python's `NameError`.
  These name resolutions are embedded as `Except` constants.
* The cache machinery (`_get_cache_valid` / `_set_cache_valid` /
  `driver_operation.invalidate_all_attributes`) lives in `ivi.py`, which is
  not part of the sources; it is modelled from the spec as a per-attribute
  boolean validity flag (see `setCacheValid`, `invalidateAllAttributes`).
-/

/-- Python exception kinds reachable in this module.  `valueNotSupported` is
`ivi.ValueNotSupportedException`; `outOfRange` is `ivi.OutOfRangeException`
(what the spec calls `IndexOutOfRangeError`); `deviceResponse` is the spec's
`DeviceResponseError`; `nameError nm` is Python's `NameError` on the
undefined bare name `nm`; `indexError` is a list index out of range;
`valueError` is a failed `int()`/`float()` conversion. -/
inductive PyError where
  | valueNotSupported
  | outOfRange
  | deviceResponse
  | nameError (nm : String)
  | indexError
  | valueError
deriving Repr, DecidableEq

/-- Transport and timing side effects of one driver call: commands sent with
`self._write`, queries sent with `self._ask`, number of raw `self._read`
calls, and `time.sleep` durations. -/
structure Effects where
  writes : List String
  asks : List String
  reads : Nat
  sleeps : List Nat
deriving Repr, DecidableEq

/-- No side effect at all. -/
def Effects.empty : Effects := ⟨[], [], 0, []⟩

/-- The driver's mutable state: the simulate flag, the cached value of every
instrument-mirrored attribute of `dmm.Base` used by this file, the identity
strings, `_memory_size`, and the per-attribute cache-validity flags. -/
structure DriverState where
  driver_operation_simulate : Bool
  measurement_function : String
  range : ℚ
  auto_range : String
  resolution : ℚ
  trigger_delay : ℚ
  trigger_delay_auto : Bool
  trigger_source : String
  identity_instrument_manufacturer : String
  identity_instrument_model : String
  identity_instrument_firmware_revision : String
  memory_size : Int
  cache : String → Bool

/-- Result of one driver call: the state after it, the side effects it
performed, and its return value or the exception it raised. -/
structure Outcome (α : Type) where
  state : DriverState
  eff : Effects
  result : Except PyError α

/-- Modelled from the spec: `ivi.Driver._set_cache_valid` (not in the
sources) sets the named attribute's validity flag. -/
def setCacheValid (c : String → Bool) (attr : String) (b : Bool) : String → Bool :=
  fun a => if a = attr then b else c a

/-- Modelled from the spec: `driver_operation.invalidate_all_attributes`
(not in the sources) is a bulk transition of every attribute's validity
flag to false. -/
def invalidateAllAttributes (_c : String → Bool) : String → Bool :=
  fun _ => false

/-- Modelled from the spec: driver construction (the `ivi.Driver` and
`dmm.Base` initializers are outside the sources) creates every attribute
with a default value and its validity flag true; `agilent34410A.__init__`
sets `_memory_size = 5` and the identity constants. -/
def initialState (sim : Bool) : DriverState where
  driver_operation_simulate := sim
  measurement_function := "dc_volts"
  range := 0
  auto_range := "off"
  resolution := 0
  trigger_delay := 0
  trigger_delay_auto := false
  trigger_source := ""
  identity_instrument_manufacturer := "Agilent Technologies"
  identity_instrument_model := ""
  identity_instrument_firmware_revision := ""
  memory_size := 5
  cache := fun _ => true

/-- Leading and trailing whitespace removed from a character list (the
whitespace stripping that Python's `int()` and `float()` perform). -/
def trimChars (cs : List Char) : List Char :=
  ((cs.dropWhile Char.isWhitespace).reverse.dropWhile Char.isWhitespace).reverse

/-- Digits-only decimal value, `none` on the empty list or a non-digit. -/
def digitsVal? (cs : List Char) : Option Nat :=
  if cs.isEmpty then none
  else if cs.all Char.isDigit then
    some (cs.foldl (fun a c => 10 * a + (c.toNat - 48)) 0)
  else none

/-- Models the Python `int()` builtin on strings: surrounding whitespace is
ignored, an optional sign precedes a nonempty digit string; anything else
raises `ValueError` (`none` here). -/
def pyInt? (s : String) : Option Int :=
  match trimChars s.data with
  | '-' :: cs => (digitsVal? cs).map (fun n => -(n : Int))
  | '+' :: cs => (digitsVal? cs).map (fun n => (n : Int))
  | cs => (digitsVal? cs).map (fun n => (n : Int))

/-- Splits a character list at every occurrence of `sep`, keeping empty
pieces; the result is always nonempty (Python `str.split(sep)` semantics
for a one-character separator). -/
def splitOnChar (sep : Char) : List Char → List (List Char)
  | [] => [[]]
  | c :: cs =>
    match splitOnChar sep cs with
    | [] => [[c]]
    | h :: t => if c = sep then [] :: h :: t else (c :: h) :: t

/-- Python `s.split(sep)` for a one-character separator. -/
def pySplit (s : String) (sep : Char) : List String :=
  (splitOnChar sep s.data).map (fun cs => String.mk cs)

/-- Fractional digit list as a rational in `[0, 1)`. -/
def fracVal (cs : List Char) : ℚ :=
  (cs.foldl (fun a c => 10 * a + (c.toNat - 48)) 0 : ℚ) / ((10 : ℚ) ^ cs.length)

/-- Unsigned decimal-literal part of `pyFloat?`. -/
def pyFloatCore (cs : List Char) : Option ℚ :=
  match splitOnChar '.' cs with
  | [ip] => (digitsVal? ip).map (fun n => (n : ℚ))
  | [ip, fp] =>
    if ip.isEmpty && fp.isEmpty then none
    else if ip.all Char.isDigit && fp.all Char.isDigit then
      some ((ip.foldl (fun a c => 10 * a + (c.toNat - 48)) 0 : ℚ) + fracVal fp)
    else none
  | _ => none

/-- Models the Python `float()` builtin on the plain decimal strings the
instrument returns (surrounding whitespace, optional sign, digits with an
optional fractional part); other forms (exponents, inf/nan), not exercised
by any claim, raise `ValueError` (`none` here). -/
def pyFloat? (s : String) : Option ℚ :=
  match trimChars s.data with
  | '-' :: cs => (pyFloatCore cs).map Neg.neg
  | '+' :: cs => pyFloatCore cs
  | cs => pyFloatCore cs

/-- Python `s.strip(chars)`: removes leading and trailing characters that
belong to `chars`. -/
def pyStrip (s : String) (chars : List Char) : String :=
  String.mk (((s.data.dropWhile chars.contains).reverse.dropWhile chars.contains).reverse)

/-- The module-level dict `MeasurementFunctionMapping` (lines 33-47), as an
insertion-ordered association list; the `ac_plus_dc_volts` and
`ac_plus_dc_current` entries are commented out in the source. -/
def MeasurementFunctionMapping : List (String × String) :=
  [("dc_volts", "volt"),
   ("ac_volts", "volt:ac"),
   ("dc_current", "curr"),
   ("ac_current", "curr:ac"),
   ("two_wire_resistance", "res"),
   ("four_wire_resistance", "fres"),
   ("frequency", "freq"),
   ("period", "per"),
   ("temperature", "temp"),
   ("capacitance", "cap"),
   ("continuity", "cont"),
   ("diode", "diod")]

/-- Resolution of the bare name `TriggerTypeMapping` used on line 174: the
module defines no such name and imports none, so evaluating it raises
`NameError`. -/
def TriggerTypeMapping : Except PyError (List (String × String)) :=
  Except.error (PyError.nameError "TriggerTypeMapping")

/-- Resolution of the bare name `Auto` used on line 198: the module defines
no such name and imports none, so evaluating it raises `NameError`. -/
def Auto : Except PyError (List String) :=
  Except.error (PyError.nameError "Auto")

/-- Effect of executing `raise OutOfRangeException()` (lines 260, 267, 274,
282): the bare name `OutOfRangeException` is not defined in the module, so
the raise statement itself raises `NameError`. -/
def raiseOutOfRangeException : PyError :=
  PyError.nameError "OutOfRangeException"

/-- The Python list comprehension
`[k for k,v in tbl.items() if v==value]` followed by `[0]`:
first key of `tbl` whose value equals `v` (`none` models the `IndexError`
of indexing an empty list). -/
def inverseLookup (tbl : List (String × String)) (v : String) : Option String :=
  ((tbl.filter (fun kv => kv.2 = v)).map Prod.fst).head?

/-- `_load_id_string` (lines 101-113).  In simulation mode the three identity
strings are set to a fixed sentinel (no cache marking); otherwise the
`*IDN?` response is split on commas and fields 0, 1 and 3 are assigned in
order (each out-of-bounds access raises `IndexError`, after the earlier
assignments have already happened), then the three identity attributes are
marked cache-valid. -/
def load_id_string (tr : String → String) (s : DriverState) : Outcome Unit :=
  if s.driver_operation_simulate then
    ⟨{ s with identity_instrument_manufacturer := "Not available while simulating",
              identity_instrument_model := "Not available while simulating",
              identity_instrument_firmware_revision := "Not available while simulating" },
     Effects.empty, Except.ok ()⟩
  else
    let lst := pySplit (tr "*IDN?") ','
    let eff : Effects := { Effects.empty with asks := ["*IDN?"] }
    match lst.get? 0 with
    | none => ⟨s, eff, Except.error PyError.indexError⟩
    | some f0 =>
      let s0 := { s with identity_instrument_manufacturer := f0 }
      match lst.get? 1 with
      | none => ⟨s0, eff, Except.error PyError.indexError⟩
      | some f1 =>
        let s1 := { s0 with identity_instrument_model := f1 }
        match lst.get? 3 with
        | none => ⟨s1, eff, Except.error PyError.indexError⟩
        | some f3 =>
          ⟨{ s1 with identity_instrument_firmware_revision := f3,
                     cache := setCacheValid (setCacheValid (setCacheValid s1.cache
                       "identity_instrument_manufacturer" true)
                       "identity_instrument_model" true)
                       "identity_instrument_firmware_revision" true },
           eff, Except.ok ()⟩

/-- `_get_identity_instrument_manufacturer` (lines 115-119): return the
cached string when its flag is valid, otherwise run `_load_id_string` first. -/
def get_identity_instrument_manufacturer (tr : String → String) (s : DriverState) :
    Outcome String :=
  if s.cache "identity_instrument_manufacturer" then
    ⟨s, Effects.empty, Except.ok s.identity_instrument_manufacturer⟩
  else
    let o := load_id_string tr s
    match o.result with
    | Except.error e => ⟨o.state, o.eff, Except.error e⟩
    | Except.ok _ => ⟨o.state, o.eff, Except.ok o.state.identity_instrument_manufacturer⟩

/-- `_utility_reset` (lines 148-151): outside simulation mode, write `*RST`
and invalidate every cached attribute; in simulation mode do nothing. -/
def utility_reset (s : DriverState) : Outcome Unit :=
  if s.driver_operation_simulate then ⟨s, Effects.empty, Except.ok ()⟩
  else
    ⟨{ s with cache := invalidateAllAttributes s.cache },
     { Effects.empty with writes := ["*RST"] }, Except.ok ()⟩

/-- `_utility_self_test` (lines 156-166): `code = 0`, `message = "Self test
passed"`; outside simulation mode, write `*TST?`, sleep 40, parse the read
response with `int()` (whose failure raises `ValueError`), and switch the
message to `"Self test failed"` when the code is nonzero.  `readResp` is the
line consumed by `self._read()`. -/
def utility_self_test (readResp : String) (s : DriverState) : Outcome (Int × String) :=
  if s.driver_operation_simulate then
    ⟨s, Effects.empty, Except.ok (0, "Self test passed")⟩
  else
    let eff : Effects := { writes := ["*TST?"], asks := [], reads := 1, sleeps := [40] }
    match pyInt? readResp with
    | none => ⟨s, eff, Except.error PyError.valueError⟩
    | some code =>
      ⟨s, eff, Except.ok (code, if code ≠ 0 then "Self test failed" else "Self test passed")⟩

/-- `_get_measurement_function` (lines 171-177): outside simulation mode
with an invalid cache flag, ask `:sense:function?`, lowercase the response,
and look the token up by value in `TriggerTypeMapping.items()` — a bare name
the module never defines, so the lookup raises `NameError` (were the table
defined, an absent token would raise `IndexError` from `[0]` on the empty
comprehension); otherwise return the cached value. -/
def get_measurement_function (tr : String → String) (s : DriverState) : Outcome String :=
  if !s.driver_operation_simulate && !s.cache "measurement_function" then
    let value := (tr ":sense:function?").toLower
    let eff : Effects := { Effects.empty with asks := [":sense:function?"] }
    match TriggerTypeMapping with
    | Except.error e => ⟨s, eff, Except.error e⟩
    | Except.ok tbl =>
      match inverseLookup tbl value with
      | none => ⟨s, eff, Except.error PyError.indexError⟩
      | some k =>
        ⟨{ s with measurement_function := k,
                  cache := setCacheValid s.cache "measurement_function" true },
         eff, Except.ok k⟩
  else
    ⟨s, Effects.empty, Except.ok s.measurement_function⟩

/-- `_set_measurement_function` (lines 179-185): an argument that is not a
key of `MeasurementFunctionMapping` raises `ValueNotSupportedException`
before any transport call; otherwise, outside simulation mode the mapped
token is written as `:sense:function <token>`, and in every mode the value
is stored and the cache flag set. -/
def set_measurement_function (s : DriverState) (value : String) : Outcome Unit :=
  match MeasurementFunctionMapping.lookup value with
  | none => ⟨s, Effects.empty, Except.error PyError.valueNotSupported⟩
  | some tok =>
    ⟨{ s with measurement_function := value,
              cache := setCacheValid s.cache "measurement_function" true },
     (if s.driver_operation_simulate then Effects.empty
      else { Effects.empty with writes := [":sense:function " ++ tok] }),
     Except.ok ()⟩

/-- `_get_range` (lines 187-188): returns the stored value unconditionally —
no cache-flag check, no transport. -/
def get_range (s : DriverState) : Outcome ℚ :=
  ⟨s, Effects.empty, Except.ok s.range⟩

/-- `_set_range` (lines 190-192): `float(value)` (identity on a numeric
argument) is stored; no transport write, no cache-flag update. -/
def set_range (s : DriverState) (value : ℚ) : Outcome Unit :=
  ⟨{ s with range := value }, Effects.empty, Except.ok ()⟩

/-- `_get_auto_range` (lines 194-195): returns the stored value
unconditionally. -/
def get_auto_range (s : DriverState) : Outcome String :=
  ⟨s, Effects.empty, Except.ok s.auto_range⟩

/-- `_set_auto_range` (lines 197-200): `if value not in Auto` evaluates the
bare name `Auto`, which the module never defines, so every call raises
`NameError` before anything else happens; the dead remainder mirrors the
source (raise `ValueNotSupportedException` on a non-member, else store). -/
def set_auto_range (s : DriverState) (value : String) : Outcome Unit :=
  match Auto with
  | Except.error e => ⟨s, Effects.empty, Except.error e⟩
  | Except.ok dom =>
    if !dom.contains value then ⟨s, Effects.empty, Except.error PyError.valueNotSupported⟩
    else ⟨{ s with auto_range := value }, Effects.empty, Except.ok ()⟩

/-- `_get_resolution` (lines 202-203): returns the stored value
unconditionally. -/
def get_resolution (s : DriverState) : Outcome ℚ :=
  ⟨s, Effects.empty, Except.ok s.resolution⟩

/-- `_set_resolution` (lines 205-207): `float(value)` is stored; no
transport write, no cache-flag update. -/
def set_resolution (s : DriverState) (value : ℚ) : Outcome Unit :=
  ⟨{ s with resolution := value }, Effects.empty, Except.ok ()⟩

/-- `_get_trigger_delay` (lines 209-210): returns the stored value
unconditionally. -/
def get_trigger_delay (s : DriverState) : Outcome ℚ :=
  ⟨s, Effects.empty, Except.ok s.trigger_delay⟩

/-- `_set_trigger_delay` (lines 212-214): `float(value)` is stored; no
transport write, no cache-flag update. -/
def set_trigger_delay (s : DriverState) (value : ℚ) : Outcome Unit :=
  ⟨{ s with trigger_delay := value }, Effects.empty, Except.ok ()⟩

/-- `_get_trigger_delay_auto` (lines 216-217): returns the stored value
unconditionally. -/
def get_trigger_delay_auto (s : DriverState) : Outcome Bool :=
  ⟨s, Effects.empty, Except.ok s.trigger_delay_auto⟩

/-- `_set_trigger_delay_auto` (lines 219-221): `bool(value)` is stored; no
transport write, no cache-flag update. -/
def set_trigger_delay_auto (s : DriverState) (value : Bool) : Outcome Unit :=
  ⟨{ s with trigger_delay_auto := value }, Effects.empty, Except.ok ()⟩

/-- `_get_trigger_source` (lines 223-224): returns the stored value
unconditionally. -/
def get_trigger_source (s : DriverState) : Outcome String :=
  ⟨s, Effects.empty, Except.ok s.trigger_source⟩

/-- `_set_trigger_source` (lines 226-228): `str(value)` is stored; no
transport write, no cache-flag update, no validation. -/
def set_trigger_source (s : DriverState) (value : String) : Outcome Unit :=
  ⟨{ s with trigger_source := value }, Effects.empty, Except.ok ()⟩

/-- `_measurement_fetch` (lines 234-237): outside simulation mode, ask
`:fetch?` and parse the response with `float()`; in simulation mode return
`0.0` with no transport call.  `max_time` is ignored by the source. -/
def measurement_fetch (tr : String → String) (s : DriverState) (_max_time : ℚ) :
    Outcome ℚ :=
  if !s.driver_operation_simulate then
    let eff : Effects := { Effects.empty with asks := [":fetch?"] }
    match pyFloat? (tr ":fetch?") with
    | none => ⟨s, eff, Except.error PyError.valueError⟩
    | some x => ⟨s, eff, Except.ok x⟩
  else ⟨s, Effects.empty, Except.ok 0⟩

/-- `_measurement_read` (lines 252-255): outside simulation mode, ask
`:read?` and parse the response with `float()`; in simulation mode return
`0.0` with no transport call.  `max_time` is ignored by the source. -/
def measurement_read (tr : String → String) (s : DriverState) (_max_time : ℚ) :
    Outcome ℚ :=
  if !s.driver_operation_simulate then
    let eff : Effects := { Effects.empty with asks := [":read?"] }
    match pyFloat? (tr ":read?") with
    | none => ⟨s, eff, Except.error PyError.valueError⟩
    | some x => ⟨s, eff, Except.ok x⟩
  else ⟨s, Effects.empty, Except.ok 0⟩

/-- `_memory_save` (lines 257-262): `int(index)` (identity on an integer
argument); an index outside `[1, _memory_size]` executes
`raise OutOfRangeException()`, which raises `NameError` on the undefined
bare name, with no transport call; otherwise `*sav <n>` is written outside
simulation mode. -/
def memory_save (s : DriverState) (index : Int) : Outcome Unit :=
  if index < 1 ∨ index > s.memory_size then
    ⟨s, Effects.empty, Except.error raiseOutOfRangeException⟩
  else if !s.driver_operation_simulate then
    ⟨s, { Effects.empty with writes := ["*sav " ++ toString index] }, Except.ok ()⟩
  else ⟨s, Effects.empty, Except.ok ()⟩

/-- `_memory_recall` (lines 264-269): like `_memory_save` with command
`*rcl <n>`. -/
def memory_recall (s : DriverState) (index : Int) : Outcome Unit :=
  if index < 1 ∨ index > s.memory_size then
    ⟨s, Effects.empty, Except.error raiseOutOfRangeException⟩
  else if !s.driver_operation_simulate then
    ⟨s, { Effects.empty with writes := ["*rcl " ++ toString index] }, Except.ok ()⟩
  else ⟨s, Effects.empty, Except.ok ()⟩

/-- `_get_memory_name` (lines 271-276): bounds check as in `_memory_save`;
outside simulation mode, ask `memory:state:name? <n>` and strip spaces and
double quotes from the response; in simulation mode the function body falls
through without a `return` statement, so Python returns `None` (`none`
here). -/
def get_memory_name (tr : String → String) (s : DriverState) (index : Int) :
    Outcome (Option String) :=
  if index < 1 ∨ index > s.memory_size then
    ⟨s, Effects.empty, Except.error raiseOutOfRangeException⟩
  else if !s.driver_operation_simulate then
    let cmd := "memory:state:name? " ++ toString index
    ⟨s, { Effects.empty with asks := [cmd] }, Except.ok (some (pyStrip (tr cmd) [' ', '"']))⟩
  else ⟨s, Effects.empty, Except.ok none⟩

/-- `_set_memory_name` (lines 278-284): `int(index)`, `str(value)`; bounds
check as in `_memory_save`; outside simulation mode the name is written
inside double quotes as `memory:state:name <n>, "<name>"`. -/
def set_memory_name (s : DriverState) (index : Int) (value : String) : Outcome Unit :=
  if index < 1 ∨ index > s.memory_size then
    ⟨s, Effects.empty, Except.error raiseOutOfRangeException⟩
  else if !s.driver_operation_simulate then
    ⟨s, { Effects.empty with
          writes := ["memory:state:name " ++ toString index ++ ", \"" ++ value ++ "\""] },
     Except.ok ()⟩
  else ⟨s, Effects.empty, Except.ok ()⟩

/-- C1: the forward table is injective, so the inverse lookup undoes it for
every recognized measurement function (round-trip law, first conjunct); but
the concrete set / invalidate / get scenario at the failing input
`f = "dc_volts"` (instrument echoing the token `volt` that was set) raises
`NameError` on the undefined bare name `TriggerTypeMapping` instead of
returning `dc_volts` — after performing its one `:sense:function?` query. -/
theorem c1_roundtrip_and_getter_defect :
    (MeasurementFunctionMapping.all
      (fun kv => inverseLookup MeasurementFunctionMapping kv.2 == some kv.1)) = true
  ∧ (get_measurement_function (fun _ => "volt")
      ((utility_reset
        ((set_measurement_function (initialState false) "dc_volts").state)).state)).result
      = Except.error (PyError.nameError "TriggerTypeMapping")
  ∧ (get_measurement_function (fun _ => "volt")
      ((utility_reset
        ((set_measurement_function (initialState false) "dc_volts").state)).state)).eff.asks
      = [":sense:function?"] :=
  ⟨by decide, rfl, rfl⟩

/-- C3: at the failing input `index = 6` (similarly `0`), all four memory
operations fail with zero transport calls, but the exception raised is
`NameError` on the undefined bare name `OutOfRangeException`, not
`ivi.OutOfRangeException` (the spec's `IndexOutOfRangeError`); the in-range
part of the claim holds (one write for `save(3)`, no error). -/
theorem c3_memory_bounds_defect :
    (memory_save (initialState false) 6).result
      = Except.error (PyError.nameError "OutOfRangeException")
  ∧ (memory_save (initialState false) 6).eff = Effects.empty
  ∧ (memory_recall (initialState false) 0).result
      = Except.error (PyError.nameError "OutOfRangeException")
  ∧ (memory_recall (initialState false) 0).eff = Effects.empty
  ∧ (get_memory_name (fun _ => "") (initialState false) 6).result
      = Except.error (PyError.nameError "OutOfRangeException")
  ∧ (get_memory_name (fun _ => "") (initialState false) 6).eff = Effects.empty
  ∧ (set_memory_name (initialState false) 6 "x").result
      = Except.error (PyError.nameError "OutOfRangeException")
  ∧ (set_memory_name (initialState false) 6 "x").eff = Effects.empty
  ∧ PyError.nameError "OutOfRangeException" ≠ PyError.outOfRange
  ∧ (memory_save (initialState false) 3).result = Except.ok ()
  ∧ (memory_save (initialState false) 3).eff.writes = ["*sav 3"]
  ∧ (memory_save (initialState false) 3).eff.asks = []
  ∧ (memory_save (initialState true) 3).eff = Effects.empty :=
  ⟨rfl, rfl, rfl, rfl, rfl, rfl, rfl, rfl, by decide, rfl, rfl, rfl, rfl⟩

/-- C6: `_set_measurement_function` behaves as claimed at an out-of-domain
value (`ValueNotSupportedException`, no transport, cache and value
untouched), but `_set_auto_range` raises `NameError` on the undefined bare
name `Auto` — for the out-of-domain failing input `"banana"` and even for
the in-domain value `"off"` — instead of `ValueNotSupportedException`. -/
theorem c6_enum_domain_defect :
    (set_auto_range (initialState false) "banana").result
      = Except.error (PyError.nameError "Auto")
  ∧ (set_auto_range (initialState false) "banana").eff = Effects.empty
  ∧ (set_auto_range (initialState false) "banana").state.auto_range
      = (initialState false).auto_range
  ∧ (set_auto_range (initialState false) "off").result
      = Except.error (PyError.nameError "Auto")
  ∧ PyError.nameError "Auto" ≠ PyError.valueNotSupported
  ∧ (set_measurement_function (initialState false) "banana").result
      = Except.error PyError.valueNotSupported
  ∧ (set_measurement_function (initialState false) "banana").eff = Effects.empty
  ∧ (set_measurement_function (initialState false) "banana").state.measurement_function
      = (initialState false).measurement_function
  ∧ (set_measurement_function (initialState false) "banana").state.cache "measurement_function"
      = (initialState false).cache "measurement_function" :=
  ⟨rfl, rfl, rfl, rfl, by decide, rfl, rfl, rfl, rfl⟩

/-- C7: in simulation mode, `_measurement_read` and `_measurement_fetch`
return `0.0` with no transport call and no state change, and
`_utility_self_test` returns `(0, "Self test passed")` with no transport
call and no sleep. -/
theorem c7_simulation_placeholders (tr : String → String) (resp : String)
    (s : DriverState) (t : ℚ) (h : s.driver_operation_simulate = true) :
    measurement_read tr s t = ⟨s, Effects.empty, Except.ok 0⟩
  ∧ measurement_fetch tr s t = ⟨s, Effects.empty, Except.ok 0⟩
  ∧ utility_self_test resp s = ⟨s, Effects.empty, Except.ok (0, "Self test passed")⟩ := by
  refine ⟨?_, ?_, ?_⟩ <;>
    simp [measurement_read, measurement_fetch, utility_self_test, h]

/-- Witness for C7 at a concrete simulated driver. -/
theorem c7_simulation_placeholders_witness :
    (initialState true).driver_operation_simulate = true
  ∧ measurement_read (fun _ => "") (initialState true) 1
      = ⟨initialState true, Effects.empty, Except.ok 0⟩
  ∧ utility_self_test "" (initialState true)
      = ⟨initialState true, Effects.empty, Except.ok (0, "Self test passed")⟩ :=
  ⟨rfl, (c7_simulation_placeholders (fun _ => "") "" (initialState true) 1 rfl).1,
        (c7_simulation_placeholders (fun _ => "") "" (initialState true) 1 rfl).2.2⟩

/-- C9: outside simulation mode, `_utility_self_test` writes `*TST?`, sleeps
for 40 time units, performs one raw read, parses it as an integer `n`, and
returns `n` paired with `"Self test failed"` exactly when `n` is nonzero and
`"Self test passed"` exactly when it is zero. -/
theorem c9_self_test_nonsim (s : DriverState) (resp : String) (n : Int)
    (hsim : s.driver_operation_simulate = false) (hn : pyInt? resp = some n) :
    utility_self_test resp s =
      ⟨s, { writes := ["*TST?"], asks := [], reads := 1, sleeps := [40] },
        Except.ok (n, if n ≠ 0 then "Self test failed" else "Self test passed")⟩ := by
  simp [utility_self_test, hsim, hn]

/-- Witness for C9 at response `"1"` (failure code) on a concrete
non-simulated driver. -/
theorem c9_self_test_nonsim_witness :
    ((initialState false).driver_operation_simulate = false ∧ pyInt? "1" = some 1)
  ∧ utility_self_test "1" (initialState false)
      = ⟨initialState false, { writes := ["*TST?"], asks := [], reads := 1, sleeps := [40] },
          Except.ok (1, "Self test failed")⟩ := by
  refine ⟨⟨rfl, by decide⟩, ?_⟩
  have h := c9_self_test_nonsim (initialState false) "1" 1 rfl (by decide)
  simpa using h

/-- C10: in simulation mode with a valid index, `_get_memory_name` returns
Python's `None` (the simulation branch has no `return` statement), while
`_memory_save`, `_memory_recall` and `_set_memory_name` succeed with no
transport call and an unchanged driver state. -/
theorem c10_simulation_memory_ops (tr : String → String) (s : DriverState)
    (i : Int) (nm : String) (hsim : s.driver_operation_simulate = true)
    (hms : s.memory_size = 5) (h1 : 1 ≤ i) (h5 : i ≤ 5) :
    get_memory_name tr s i = ⟨s, Effects.empty, Except.ok none⟩
  ∧ memory_save s i = ⟨s, Effects.empty, Except.ok ()⟩
  ∧ memory_recall s i = ⟨s, Effects.empty, Except.ok ()⟩
  ∧ set_memory_name s i nm = ⟨s, Effects.empty, Except.ok ()⟩ := by
  have hcond : ¬(i < 1 ∨ i > s.memory_size) := by rw [hms]; omega
  refine ⟨?_, ?_, ?_, ?_⟩ <;>
    simp [get_memory_name, memory_save, memory_recall, set_memory_name, hcond, hsim]

/-- Witness for C10 at slot 3 of a concrete simulated driver. -/
theorem c10_simulation_memory_ops_witness :
    ((initialState true).driver_operation_simulate = true
      ∧ (initialState true).memory_size = 5 ∧ 1 ≤ (3 : Int) ∧ (3 : Int) ≤ 5)
  ∧ get_memory_name (fun _ => "") (initialState true) 3
      = ⟨initialState true, Effects.empty, Except.ok none⟩
  ∧ memory_save (initialState true) 3 = ⟨initialState true, Effects.empty, Except.ok ()⟩ :=
  ⟨⟨rfl, rfl, by decide, by decide⟩,
    (c10_simulation_memory_ops (fun _ => "") (initialState true) 3 "cal"
      rfl rfl (by decide) (by decide)).1,
    (c10_simulation_memory_ops (fun _ => "") (initialState true) 3 "cal"
      rfl rfl (by decide) (by decide)).2.1⟩

/-- C2 counterexample: `range` was cache-valid at construction; after a
non-simulation `reset`, `_set_range 5` stores the value but leaves the
`range` validity flag false — refuting "a set always leaves the flag true"
at the concrete input `set_range(5)` in the post-reset state. -/
theorem c2_counterexample_set_range_flag :
    (initialState false).cache "range" = true
  ∧ (set_range ((utility_reset (initialState false)).state) 5).state.range = 5
  ∧ (set_range ((utility_reset (initialState false)).state) 5).state.cache "range" = false :=
  ⟨rfl, rfl, rfl⟩

/-- C2 amended: for every attribute a set stores the value and a subsequent
get returns it with no transport call; but only `_set_measurement_function`
sets the validity flag true — `_set_range`, `_set_resolution`,
`_set_trigger_delay`, `_set_trigger_delay_auto` and `_set_trigger_source`
leave the flag exactly as it was (their getters never consult it), and
`_set_auto_range` accepts no value at all (`NameError` on the undefined
bare name `Auto`), leaving the state unchanged. -/
theorem c2_amended_set_then_get (tr : String → String) (s : DriverState)
    (f tok v : String) (q : ℚ) (b : Bool)
    (hf : MeasurementFunctionMapping.lookup f = some tok) :
    ((set_measurement_function s f).state.measurement_function = f
      ∧ (set_measurement_function s f).state.cache "measurement_function" = true
      ∧ get_measurement_function tr (set_measurement_function s f).state
          = ⟨(set_measurement_function s f).state, Effects.empty, Except.ok f⟩)
  ∧ ((set_range s q).state.range = q
      ∧ (set_range s q).state.cache "range" = s.cache "range"
      ∧ get_range (set_range s q).state
          = ⟨(set_range s q).state, Effects.empty, Except.ok q⟩)
  ∧ ((set_resolution s q).state.resolution = q
      ∧ (set_resolution s q).state.cache "resolution" = s.cache "resolution"
      ∧ get_resolution (set_resolution s q).state
          = ⟨(set_resolution s q).state, Effects.empty, Except.ok q⟩)
  ∧ ((set_trigger_delay s q).state.trigger_delay = q
      ∧ (set_trigger_delay s q).state.cache "trigger_delay" = s.cache "trigger_delay"
      ∧ get_trigger_delay (set_trigger_delay s q).state
          = ⟨(set_trigger_delay s q).state, Effects.empty, Except.ok q⟩)
  ∧ ((set_trigger_delay_auto s b).state.trigger_delay_auto = b
      ∧ (set_trigger_delay_auto s b).state.cache "trigger_delay_auto"
          = s.cache "trigger_delay_auto"
      ∧ get_trigger_delay_auto (set_trigger_delay_auto s b).state
          = ⟨(set_trigger_delay_auto s b).state, Effects.empty, Except.ok b⟩)
  ∧ ((set_trigger_source s v).state.trigger_source = v
      ∧ (set_trigger_source s v).state.cache "trigger_source" = s.cache "trigger_source"
      ∧ get_trigger_source (set_trigger_source s v).state
          = ⟨(set_trigger_source s v).state, Effects.empty, Except.ok v⟩)
  ∧ ((set_auto_range s v).state = s
      ∧ (set_auto_range s v).result = Except.error (PyError.nameError "Auto")) := by
  refine ⟨⟨?_, ?_, ?_⟩, ⟨rfl, rfl, rfl⟩, ⟨rfl, rfl, rfl⟩, ⟨rfl, rfl, rfl⟩,
    ⟨rfl, rfl, rfl⟩, ⟨rfl, rfl, rfl⟩, ?_, ?_⟩ <;>
    simp [set_measurement_function, hf, get_measurement_function, setCacheValid,
      set_auto_range, Auto]

/-- Witness for C2 (amended) at `f = "dc_volts"` on a concrete driver. -/
theorem c2_amended_set_then_get_witness :
    MeasurementFunctionMapping.lookup "dc_volts" = some "volt"
  ∧ (set_measurement_function (initialState false) "dc_volts").state.measurement_function
      = "dc_volts"
  ∧ (set_range (initialState false) 5).state.cache "range"
      = (initialState false).cache "range" :=
  ⟨rfl,
    (c2_amended_set_then_get (fun _ => "") (initialState false) "dc_volts" "volt" "x" 5 true
      rfl).1.1,
    (c2_amended_set_then_get (fun _ => "") (initialState false) "dc_volts" "volt" "x" 5 true
      rfl).2.1.2.1⟩

/-- C4 counterexample: `range` was cache-valid before the non-simulation
reset, yet the next `_get_range` performs zero transport calls (its getter
never queries hardware) and simply returns the cached value — refuting "the
next get of any previously-valid attribute triggers exactly one transport
query" at the concrete attribute `range`. -/
theorem c4_counterexample_get_range_after_reset :
    (initialState false).cache "range" = true
  ∧ (get_range ((utility_reset (initialState false)).state)).eff = Effects.empty
  ∧ (get_range ((utility_reset (initialState false)).state)).result
      = Except.ok (initialState false).range :=
  ⟨rfl, rfl, rfl⟩

/-- Outside simulation mode, `_load_id_string` performs exactly one
transport call, the `*IDN?` query, whichever branch it takes. -/
theorem load_id_string_eff (tr : String → String) (s : DriverState)
    (hsim : s.driver_operation_simulate = false) :
    (load_id_string tr s).eff = { Effects.empty with asks := ["*IDN?"] } := by
  unfold load_id_string
  simp only [hsim, Bool.false_eq_true, if_false]
  split
  · rfl
  split
  · rfl
  split <;> rfl

/-- C4 amended: outside simulation mode, `_utility_reset` writes `*RST`,
performs no query, and sets every attribute's validity flag false; the next
get of `measurement_function` or of an identity attribute then issues
exactly one transport query, while the getters of `range`, `auto_range`,
`resolution`, `trigger_delay`, `trigger_delay_auto` and `trigger_source`
return the cached value with zero transport calls. -/
theorem c4_amended_reset_invalidates (tr : String → String) (s : DriverState)
    (hsim : s.driver_operation_simulate = false) :
    (utility_reset s).eff = { Effects.empty with writes := ["*RST"] }
  ∧ (∀ a, (utility_reset s).state.cache a = false)
  ∧ (get_measurement_function tr (utility_reset s).state).eff.asks
      = [":sense:function?"]
  ∧ (get_identity_instrument_manufacturer tr (utility_reset s).state).eff.asks
      = ["*IDN?"]
  ∧ (get_range (utility_reset s).state).eff = Effects.empty
  ∧ (get_auto_range (utility_reset s).state).eff = Effects.empty
  ∧ (get_resolution (utility_reset s).state).eff = Effects.empty
  ∧ (get_trigger_delay (utility_reset s).state).eff = Effects.empty
  ∧ (get_trigger_delay_auto (utility_reset s).state).eff = Effects.empty
  ∧ (get_trigger_source (utility_reset s).state).eff = Effects.empty := by
  have hs : (utility_reset s).state.driver_operation_simulate = false := by
    simp [utility_reset, hsim]
  have hc : ∀ a, (utility_reset s).state.cache a = false := by
    intro a; simp [utility_reset, hsim, invalidateAllAttributes]
  have he := load_id_string_eff tr (utility_reset s).state hs
  refine ⟨?_, hc, ?_, ?_, rfl, rfl, rfl, rfl, rfl, rfl⟩
  · simp [utility_reset, hsim]
  · simp [get_measurement_function, hs, hc, TriggerTypeMapping]
  · unfold get_identity_instrument_manufacturer
    rw [hc "identity_instrument_manufacturer"]
    simp only [Bool.false_eq_true, if_false]
    split <;> simp [he]

/-- Witness for C4 (amended) on a concrete non-simulated driver. -/
theorem c4_amended_reset_invalidates_witness :
    (initialState false).driver_operation_simulate = false
  ∧ (utility_reset (initialState false)).eff = { Effects.empty with writes := ["*RST"] }
  ∧ (get_range ((utility_reset (initialState false)).state)).eff = Effects.empty :=
  ⟨rfl, (c4_amended_reset_invalidates (fun _ => "") (initialState false) rfl).1,
    (c4_amended_reset_invalidates (fun _ => "") (initialState false) rfl).2.2.2.2.1⟩

/-- C5 counterexample: outside simulation mode, `_set_range 5` succeeds yet
issues zero transport writes — refuting "exactly one transport write per
successful set call" at the concrete input `set_range(5)`. -/
theorem c5_counterexample_set_range_writes :
    (initialState false).driver_operation_simulate = false
  ∧ (set_range (initialState false) 5).result = Except.ok ()
  ∧ (set_range (initialState false) 5).eff = Effects.empty :=
  ⟨rfl, rfl, rfl⟩

/-- C5 amended: outside simulation mode, a successful
`_set_measurement_function` issues exactly one transport write (the mapped
`:sense:function` command) and a validation failure issues none; every
other setter issues zero transport writes in all cases (the `range`,
`resolution`, `trigger_delay`, `trigger_delay_auto` and `trigger_source`
setters are pure local stores, and `_set_auto_range` raises `NameError`
before any effect). -/
theorem c5_amended_write_effects (s : DriverState) (f tok w v : String)
    (q : ℚ) (b : Bool) (hsim : s.driver_operation_simulate = false)
    (hf : MeasurementFunctionMapping.lookup f = some tok)
    (hw : MeasurementFunctionMapping.lookup w = none) :
    (set_measurement_function s f).eff
      = { Effects.empty with writes := [":sense:function " ++ tok] }
  ∧ (set_measurement_function s w).eff = Effects.empty
  ∧ (set_measurement_function s w).result = Except.error PyError.valueNotSupported
  ∧ (set_range s q).eff = Effects.empty
  ∧ (set_auto_range s v).eff = Effects.empty
  ∧ (set_resolution s q).eff = Effects.empty
  ∧ (set_trigger_delay s q).eff = Effects.empty
  ∧ (set_trigger_delay_auto s b).eff = Effects.empty
  ∧ (set_trigger_source s v).eff = Effects.empty := by
  refine ⟨?_, ?_, ?_, rfl, ?_, rfl, rfl, rfl, rfl⟩ <;>
    simp [set_measurement_function, hf, hw, hsim, set_auto_range, Auto]

/-- Witness for C5 (amended) at `f = "dc_volts"`, `w = "banana"` on a
concrete non-simulated driver. -/
theorem c5_amended_write_effects_witness :
    ((initialState false).driver_operation_simulate = false
      ∧ MeasurementFunctionMapping.lookup "dc_volts" = some "volt"
      ∧ MeasurementFunctionMapping.lookup "banana" = none)
  ∧ (set_measurement_function (initialState false) "dc_volts").eff
      = { Effects.empty with writes := [":sense:function volt"] } :=
  ⟨⟨rfl, rfl, rfl⟩,
    (c5_amended_write_effects (initialState false) "dc_volts" "volt" "banana" "x" 5 true
      rfl rfl rfl).1⟩

/-- C8 counterexample: at the concrete two-field response
`"Agilent,34410A"`, `_load_id_string` fails with `IndexError` from the
out-of-bounds `lst[3]` access — not the spec's `DeviceResponseError` — and
it has already assigned the two fields that did exist before failing. -/
theorem c8_counterexample_short_idn :
    (load_id_string (fun _ => "Agilent,34410A") (initialState false)).result
      = Except.error PyError.indexError
  ∧ PyError.indexError ≠ PyError.deviceResponse
  ∧ (load_id_string (fun _ => "Agilent,34410A") (initialState false)).state.identity_instrument_manufacturer
      = "Agilent"
  ∧ (load_id_string (fun _ => "Agilent,34410A") (initialState false)).state.identity_instrument_model
      = "34410A" :=
  ⟨rfl, by decide, rfl, rfl⟩

/-- C8 amended: outside simulation mode, `_load_id_string` issues the
`*IDN?` query and splits the response on commas; with at least four fields
it assigns field 0 to the manufacturer, field 1 to the model and field 3 to
the firmware revision and marks the three identity attributes cache-valid;
with fewer than four fields it fails with `IndexError` (not
`DeviceResponseError`), leaving every cache flag unchanged, having already
assigned the fields that were present. -/
theorem c8_amended_load_id_string (tr : String → String) (s : DriverState)
    (hsim : s.driver_operation_simulate = false) :
    (∀ f0 f1 f2 f3 rest, pySplit (tr "*IDN?") ',' = f0 :: f1 :: f2 :: f3 :: rest →
      load_id_string tr s =
        ⟨{ s with identity_instrument_manufacturer := f0,
                  identity_instrument_model := f1,
                  identity_instrument_firmware_revision := f3,
                  cache := setCacheValid (setCacheValid (setCacheValid s.cache
                    "identity_instrument_manufacturer" true)
                    "identity_instrument_model" true)
                    "identity_instrument_firmware_revision" true },
          { Effects.empty with asks := ["*IDN?"] }, Except.ok ()⟩)
  ∧ ((pySplit (tr "*IDN?") ',').length < 4 →
      (load_id_string tr s).result = Except.error PyError.indexError
      ∧ (load_id_string tr s).eff = { Effects.empty with asks := ["*IDN?"] }
      ∧ (∀ a, (load_id_string tr s).state.cache a = s.cache a)) := by
  constructor
  · intro f0 f1 f2 f3 rest hl
    simp [load_id_string, hsim, hl]
  · intro hlen
    rcases hl : pySplit (tr "*IDN?") ',' with _ | ⟨f0, _ | ⟨f1, _ | ⟨f2, _ | ⟨f3, rest⟩⟩⟩⟩ <;>
      simp [load_id_string, hsim, hl]
    rw [hl] at hlen
    simp at hlen
    omega

/-- Witness for C8 (amended) at a concrete well-formed four-field `*IDN?`
response. -/
theorem c8_amended_load_id_string_witness :
    ((initialState false).driver_operation_simulate = false
      ∧ pySplit "Agilent Technologies,34410A,0,2.35" ','
          = "Agilent Technologies" :: "34410A" :: "0" :: "2.35" :: [])
  ∧ load_id_string (fun _ => "Agilent Technologies,34410A,0,2.35") (initialState false) =
      ⟨{ initialState false with
          identity_instrument_manufacturer := "Agilent Technologies",
          identity_instrument_model := "34410A",
          identity_instrument_firmware_revision := "2.35",
          cache := setCacheValid (setCacheValid (setCacheValid (initialState false).cache
            "identity_instrument_manufacturer" true)
            "identity_instrument_model" true)
            "identity_instrument_firmware_revision" true },
        { Effects.empty with asks := ["*IDN?"] }, Except.ok ()⟩ :=
  ⟨⟨rfl, by decide⟩,
    (c8_amended_load_id_string (fun _ => "Agilent Technologies,34410A,0,2.35")
      (initialState false) rfl).1 "Agilent Technologies" "34410A" "0" "2.35" [] (by decide)⟩
